import Mathlib

/-!
Verification of the qeg-nv-control experiment-control library.

This file gives a shallow embedding, in Lean 4, of the state and the
operations of the repository `awstasiuk/qeg-nv-control`:

* `Experiment` (src/qegnv/experiment/base_experiment.py) — the
  command-sequence builder: `update_loop` (sweep-vector registration and
  consistency resolution), `add_measure`, the precondition checks of
  `execute_experiment` / `simulate_experiment`, and `save` / `load`;
* `ConfigNV` (src/qegnv/experiment/config.py) — scalar constants, the
  derived hardware-configuration document `update_config`, the
  regenerate-on-write `__setattr__` rule, and `to_dict` / `from_dict`;
* `SG384Control.do_set_modulation_type` (src/qegnv/devices/SG384.py);
* `DataFitter.fit` (src/qegnv/analysis/analysis.py).

Modelling conventions.  Python numbers (ints and floats) are embedded as
rationals `ℚ`, so every arithmetic step of the source is exact; numpy
arrays are embedded as `List ℚ` (this is also the shape the repository's
`NumpyEncoder` flattens arrays to when saving JSON).  A Python method
that can `raise` is embedded as a function into `Except`; where the
claim under study concerns the mutation left behind by a raising call,
the error value carries the post-state.  `np.cos` / `np.sin`, which the
configuration uses only inside `IQ_imbalance`, are taken as an abstract
parameter (`TrigModel`): every theorem below holds for an arbitrary
interpretation of the two functions.  External collaborators (the QM
runtime, the VISA transport, scipy's `curve_fit`) are out of scope per
the specification; their interaction points appear as emitted action
labels or as an abstract solver outcome.
-/

namespace QegNV

/-- A raised Python exception, as far as the embedded code distinguishes
them: `ValueError` (explicitly raised) or `IndexError` (list access past
the end). -/
inductive PyError
  | valueError
  | indexError
deriving DecidableEq, Repr

/-- `np.dot` on equal-length 1-d arrays: the sum of pointwise products. -/
def dot (a b : List ℚ) : ℚ := (List.zipWith (fun x y => x * y) a b).sum

/-- The ratio-search loop inside `Experiment.update_loop`
(base_experiment.py lines 267–273):

    div = -1
    idx = 0
    while div < 0:
        div = two[idx] / var_vec[idx] if var_vec[idx] != 0 else -1
        idx += 1
    if div > 0:
        return div

The first list is `two` (the stored vector), the second is `var_vec`
(the newly submitted one); `idx` walks both in lockstep.  Falling off
the end of either list is the Python `IndexError` (the ternary evaluates
`var_vec[idx]` first, so with `two` exhausted but `var_vec[idx] = 0` the
loop still advances); exiting the loop with `div = 0` falls through to
`raise ValueError` at line 275. -/
def ratio_search : List ℚ → List ℚ → Except PyError ℚ
  | _, [] => .error .indexError
  | [], n :: ns => if n = 0 then ratio_search [] ns else .error .indexError
  | o :: os, n :: ns =>
    if n = 0 then ratio_search os ns
    else if o / n < 0 then ratio_search os ns
    else if o / n > 0 then .ok (o / n)
    else .error .valueError

/-- A builder command (the dictionaries appended to `self.commands`),
as a closed tagged variant, one constructor per `"type"` key. -/
inductive Command
  | pulse (element name : String) (cycle : Bool)
      (scale amplitude length : Option ℚ)
  | cw (element : String) (scale amplitude length : Option ℚ)
  | laser (mode channel : String) (length : ℚ)
  | wait (scale length : Option ℚ)
  | measure (channel mode : String) (meas_len : ℚ)
  | update_frequency (element : String)
  | align
deriving DecidableEq, Repr

/-- An abstract interpretation of `np.cos` and `np.sin`, the only two
transcendental operations the configuration evaluates (inside
`IQ_imbalance`).  All theorems hold for every interpretation. -/
structure TrigModel where
  cos : ℚ → ℚ
  sin : ℚ → ℚ

/-- The numeric scalar constants of `ConfigNV` set by `load_default`
(config.py lines 218–287), after the unit helper `u` (with
`coerce_to_integer=True`) has been applied: `u.GHz = 10^9`,
`u.MHz = 10^6`, `u.ns = 1`. -/
structure Scalars where
  SG1_LO_freq : ℚ
  SG1_LO_amp : ℚ
  SG2_LO_freq : ℚ
  SG2_LO_amp : ℚ
  initialization_len_1 : ℚ
  meas_len_1 : ℚ
  long_meas_len_1 : ℚ
  initialization_len_2 : ℚ
  meas_len_2 : ℚ
  long_meas_len_2 : ℚ
  relaxation_time : ℚ
  wait_for_initialization : ℚ
  IF_freq_NV : ℚ
  mw_amp_NV : ℚ
  mw_len_NV : ℚ
  x180_amp_NV : ℚ
  x180_len_NV : ℚ
  x90_amp_NV : ℚ
  x90_len_NV : ℚ
  IF_freq_X : ℚ
  mw_amp_X : ℚ
  mw_len_X : ℚ
  x180_amp_X : ℚ
  rf_frequency : ℚ
  rf_amp : ℚ
  rf_length : ℚ
  signal_threshold_1 : ℚ
  signal_threshold_2 : ℚ
  detection_delay_1 : ℚ
  detection_delay_2 : ℚ
  laser_delay_1 : ℚ
  laser_delay_2 : ℚ
  mw_delay : ℚ
  rf_delay : ℚ
  wait_between_runs : ℚ
  g : ℚ
  phi : ℚ

/-- The default constant set of `ConfigNV.load_default`.  The duplicate
assignments in the source (`x180_len_NV`, `x90_amp_NV`, `x90_len_NV`
are each assigned twice, to equal values) collapse to single fields. -/
def load_default : Scalars where
  SG1_LO_freq := 1769000000
  SG1_LO_amp := -24
  SG2_LO_freq := 940000000
  SG2_LO_amp := -23
  initialization_len_1 := 3000
  meas_len_1 := 600
  long_meas_len_1 := 10000
  initialization_len_2 := 3000
  meas_len_2 := 500
  long_meas_len_2 := 5000
  relaxation_time := 300
  wait_for_initialization := 600
  IF_freq_NV := 80000000
  mw_amp_NV := 1/4
  mw_len_NV := 500
  x180_amp_NV := 238/1000
  x180_len_NV := 500
  x90_amp_NV := 119/1000
  x90_len_NV := 500
  IF_freq_X := 80000000
  mw_amp_X := 1/4
  mw_len_X := 500
  x180_amp_X := 144/1000
  rf_frequency := 10000000
  rf_amp := 1/10
  rf_length := 1000
  signal_threshold_1 := -800
  signal_threshold_2 := -2000
  detection_delay_1 := 292
  detection_delay_2 := 80
  laser_delay_1 := 140
  laser_delay_2 := 0
  mw_delay := 0
  rf_delay := 0
  wait_between_runs := 500
  g := 3/100
  phi := -5/100

/-- The names of the scalar attributes of `ConfigNV` (every attribute a
caller can write other than the derived document `config` itself, as
far as the document is concerned; string-valued attributes such as
`qop_ip` never feed the document). -/
inductive ScalarName
  | SG1_LO_freq | SG1_LO_amp | SG2_LO_freq | SG2_LO_amp
  | initialization_len_1 | meas_len_1 | long_meas_len_1
  | initialization_len_2 | meas_len_2 | long_meas_len_2
  | relaxation_time | wait_for_initialization
  | IF_freq_NV | mw_amp_NV | mw_len_NV
  | x180_amp_NV | x180_len_NV | x90_amp_NV | x90_len_NV
  | IF_freq_X | mw_amp_X | mw_len_X | x180_amp_X
  | rf_frequency | rf_amp | rf_length
  | signal_threshold_1 | signal_threshold_2
  | detection_delay_1 | detection_delay_2
  | laser_delay_1 | laser_delay_2
  | mw_delay | rf_delay | wait_between_runs
  | g | phi

/-- `self.__dict__[name] = value` for a scalar attribute. -/
def setScalar (s : Scalars) : ScalarName → ℚ → Scalars
  | .SG1_LO_freq, v => { s with SG1_LO_freq := v }
  | .SG1_LO_amp, v => { s with SG1_LO_amp := v }
  | .SG2_LO_freq, v => { s with SG2_LO_freq := v }
  | .SG2_LO_amp, v => { s with SG2_LO_amp := v }
  | .initialization_len_1, v => { s with initialization_len_1 := v }
  | .meas_len_1, v => { s with meas_len_1 := v }
  | .long_meas_len_1, v => { s with long_meas_len_1 := v }
  | .initialization_len_2, v => { s with initialization_len_2 := v }
  | .meas_len_2, v => { s with meas_len_2 := v }
  | .long_meas_len_2, v => { s with long_meas_len_2 := v }
  | .relaxation_time, v => { s with relaxation_time := v }
  | .wait_for_initialization, v => { s with wait_for_initialization := v }
  | .IF_freq_NV, v => { s with IF_freq_NV := v }
  | .mw_amp_NV, v => { s with mw_amp_NV := v }
  | .mw_len_NV, v => { s with mw_len_NV := v }
  | .x180_amp_NV, v => { s with x180_amp_NV := v }
  | .x180_len_NV, v => { s with x180_len_NV := v }
  | .x90_amp_NV, v => { s with x90_amp_NV := v }
  | .x90_len_NV, v => { s with x90_len_NV := v }
  | .IF_freq_X, v => { s with IF_freq_X := v }
  | .mw_amp_X, v => { s with mw_amp_X := v }
  | .mw_len_X, v => { s with mw_len_X := v }
  | .x180_amp_X, v => { s with x180_amp_X := v }
  | .rf_frequency, v => { s with rf_frequency := v }
  | .rf_amp, v => { s with rf_amp := v }
  | .rf_length, v => { s with rf_length := v }
  | .signal_threshold_1, v => { s with signal_threshold_1 := v }
  | .signal_threshold_2, v => { s with signal_threshold_2 := v }
  | .detection_delay_1, v => { s with detection_delay_1 := v }
  | .detection_delay_2, v => { s with detection_delay_2 := v }
  | .laser_delay_1, v => { s with laser_delay_1 := v }
  | .laser_delay_2, v => { s with laser_delay_2 := v }
  | .mw_delay, v => { s with mw_delay := v }
  | .rf_delay, v => { s with rf_delay := v }
  | .wait_between_runs, v => { s with wait_between_runs := v }
  | .g, v => { s with g := v }
  | .phi, v => { s with phi := v }

/-- `IQ_imbalance(g, phi)` (config.py lines 17–28), with `cos phi` and
`sin phi` supplied by the trig interpretation. -/
def IQ_imbalance (t : TrigModel) (g phi : ℚ) : List ℚ :=
  let c := t.cos phi
  let s := t.sin phi
  let N := 1 / ((1 - g ^ 2) * (2 * c ^ 2 - 1))
  [N * ((1 - g) * c), N * ((1 + g) * s), N * ((1 - g) * s), N * ((1 + g) * c)]

/-- One analog output port entry of the controller block. -/
structure AnalogOutput where
  offset : ℚ
  delay : ℚ

/-- The `"controllers" -> "con1"` block of the derived document. -/
structure Controller where
  ctype : String
  analog_outputs : List (ℕ × AnalogOutput)
  digital_outputs : List ℕ
  analog_inputs : List (ℕ × ℚ)

/-- The `mixInputs` sub-record of the `NV` element. -/
structure MixInputs where
  I : String × ℕ
  Q : String × ℕ
  lo_frequency : ℚ
  mixer : String

/-- The `"NV"` element. -/
structure NVElement where
  mixInputs : MixInputs
  intermediate_frequency : ℚ
  operations : List (String × String)

/-- The `"RF"` element. -/
structure RFElement where
  singleInput : String × ℕ
  intermediate_frequency : ℚ
  operations : List (String × String)

/-- A `digitalInputs -> marker` sub-record. -/
structure DigitalMarker where
  port : String × ℕ
  delay : ℚ
  buffer : ℚ

/-- An `"AOM1"` / `"AOM2"` element. -/
structure AOMElement where
  marker : DigitalMarker
  operations : List (String × String)

/-- The `outputPulseParameters` sub-record of an SPCM element. -/
structure OutputPulseParameters where
  signalThreshold : ℚ
  signalPolarity : String
  derivativeThreshold : ℚ
  derivativePolarity : String

/-- An `"SPCM1"` / `"SPCM2"` element. -/
structure SPCMElement where
  singleInput : String × ℕ
  marker : DigitalMarker
  operations : List (String × String)
  out1 : String × ℕ
  outputPulseParameters : OutputPulseParameters
  time_of_flight : ℚ
  smearing : ℚ

/-- The `"elements"` block of the derived document. -/
structure Elements where
  NV : NVElement
  RF : RFElement
  AOM1 : AOMElement
  AOM2 : AOMElement
  SPCM1 : SPCMElement
  SPCM2 : SPCMElement

/-- One entry of the `"pulses"` block. -/
structure Pulse where
  operation : String
  length : ℚ
  waveforms : List (String × String)
  digital_marker : Option String

/-- The `"pulses"` block; the Python keys `"-x90_pulse"` and
`"-y90_pulse"` are spelled `minus_x90_pulse` / `minus_y90_pulse`. -/
structure Pulses where
  const_pulse : Pulse
  x180_pulse : Pulse
  x90_pulse : Pulse
  minus_x90_pulse : Pulse
  minus_y90_pulse : Pulse
  y90_pulse : Pulse
  y180_pulse : Pulse
  const_pulse_single : Pulse
  laser_ON_1 : Pulse
  laser_ON_2 : Pulse
  readout_pulse_1 : Pulse
  long_readout_pulse_1 : Pulse
  readout_pulse_2 : Pulse
  long_readout_pulse_2 : Pulse

/-- One entry of the `"waveforms"` block. -/
structure Waveform where
  wtype : String
  sample : ℚ

/-- The `"waveforms"` block. -/
structure Waveforms where
  cw_wf : Waveform
  rf_const_wf : Waveform
  x180_wf : Waveform
  x90_wf : Waveform
  minus_x90_wf : Waveform
  zero_wf : Waveform

/-- One correction entry of the `"mixers" -> "mixer_NV"` list. -/
structure MixerEntry where
  intermediate_frequency : ℚ
  lo_frequency : ℚ
  correction : List ℚ

/-- The derived hardware-configuration document assigned to
`self.config` by `ConfigNV.update_config`. -/
structure QmDocument where
  version : ℕ
  controllers : Controller
  elements : Elements
  pulses : Pulses
  waveforms : Waveforms
  digital_waveforms : List (String × List (ℕ × ℕ))
  mixers : List MixerEntry

/-- `ConfigNV.update_config` (config.py lines 289–511): the derived
document as a pure function of the scalar constants (and of the trig
interpretation used by `IQ_imbalance`).  Every literal below is copied
from the source. -/
def update_config (t : TrigModel) (s : Scalars) : QmDocument where
  version := 1
  controllers :=
    { ctype := "opx1"
      analog_outputs :=
        [(1, { offset := -2/100, delay := s.mw_delay }),
         (2, { offset := -2/100, delay := s.mw_delay }),
         (3, { offset := -5/1000, delay := s.mw_delay }),
         (4, { offset := -23/1000, delay := s.mw_delay })]
      digital_outputs := [1, 2, 3, 4]
      analog_inputs := [(1, 4/1000), (2, 0)] }
  elements :=
    { NV :=
        { mixInputs :=
            { I := ("con1", 1), Q := ("con1", 2)
              lo_frequency := s.SG1_LO_freq, mixer := "mixer_NV" }
          intermediate_frequency := s.IF_freq_NV
          operations :=
            [("cw", "const_pulse"), ("x180", "x180_pulse"),
             ("x90", "x90_pulse"), ("-x90", "-x90_pulse"),
             ("-y90", "-y90_pulse"), ("y90", "y90_pulse"),
             ("y180", "y180_pulse")] }
      RF :=
        { singleInput := ("con1", 3)
          intermediate_frequency := s.rf_frequency
          operations := [("const", "const_pulse_single")] }
      AOM1 :=
        { marker := { port := ("con1", 1), delay := s.laser_delay_1, buffer := 0 }
          operations := [("laser_ON", "laser_ON_1")] }
      AOM2 :=
        { marker := { port := ("con1", 2), delay := s.laser_delay_2, buffer := 0 }
          operations := [("laser_ON", "laser_ON_2")] }
      SPCM1 :=
        { singleInput := ("con1", 1)
          marker := { port := ("con1", 3), delay := s.detection_delay_1, buffer := 0 }
          operations := [("readout", "readout_pulse_1"), ("long_readout", "long_readout_pulse_1")]
          out1 := ("con1", 1)
          outputPulseParameters :=
            { signalThreshold := s.signal_threshold_1, signalPolarity := "Below"
              derivativeThreshold := -2000, derivativePolarity := "Above" }
          time_of_flight := s.detection_delay_1
          smearing := 0 }
      SPCM2 :=
        { singleInput := ("con1", 1)
          marker := { port := ("con1", 4), delay := s.detection_delay_2, buffer := 0 }
          operations := [("readout", "readout_pulse_2"), ("long_readout", "long_readout_pulse_2")]
          out1 := ("con1", 2)
          outputPulseParameters :=
            { signalThreshold := s.signal_threshold_2, signalPolarity := "Below"
              derivativeThreshold := -2000, derivativePolarity := "Above" }
          time_of_flight := s.detection_delay_2
          smearing := 0 } }
  pulses :=
    { const_pulse :=
        { operation := "control", length := s.mw_len_NV
          waveforms := [("I", "cw_wf"), ("Q", "zero_wf")], digital_marker := none }
      x180_pulse :=
        { operation := "control", length := s.x180_len_NV
          waveforms := [("I", "x180_wf"), ("Q", "zero_wf")], digital_marker := none }
      x90_pulse :=
        { operation := "control", length := s.x90_len_NV
          waveforms := [("I", "x90_wf"), ("Q", "zero_wf")], digital_marker := none }
      minus_x90_pulse :=
        { operation := "control", length := s.x90_len_NV
          waveforms := [("I", "minus_x90_wf"), ("Q", "zero_wf")], digital_marker := none }
      minus_y90_pulse :=
        { operation := "control", length := s.x90_len_NV
          waveforms := [("I", "zero_wf"), ("Q", "minus_x90_wf")], digital_marker := none }
      y90_pulse :=
        { operation := "control", length := s.x90_len_NV
          waveforms := [("I", "zero_wf"), ("Q", "x90_wf")], digital_marker := none }
      y180_pulse :=
        { operation := "control", length := s.x180_len_NV
          waveforms := [("I", "zero_wf"), ("Q", "x180_wf")], digital_marker := none }
      const_pulse_single :=
        { operation := "control", length := s.rf_length
          waveforms := [("single", "rf_const_wf")], digital_marker := none }
      laser_ON_1 :=
        { operation := "control", length := s.initialization_len_1
          waveforms := [], digital_marker := some "ON" }
      laser_ON_2 :=
        { operation := "control", length := s.initialization_len_2
          waveforms := [], digital_marker := some "ON" }
      readout_pulse_1 :=
        { operation := "measurement", length := s.meas_len_1
          waveforms := [("single", "zero_wf")], digital_marker := some "ON" }
      long_readout_pulse_1 :=
        { operation := "measurement", length := s.long_meas_len_1
          waveforms := [("single", "zero_wf")], digital_marker := some "ON" }
      readout_pulse_2 :=
        { operation := "measurement", length := s.meas_len_2
          waveforms := [("single", "zero_wf")], digital_marker := some "ON" }
      long_readout_pulse_2 :=
        { operation := "measurement", length := s.long_meas_len_2
          waveforms := [("single", "zero_wf")], digital_marker := some "ON" } }
  waveforms :=
    { cw_wf := { wtype := "constant", sample := s.mw_amp_NV }
      rf_const_wf := { wtype := "constant", sample := s.rf_amp }
      x180_wf := { wtype := "constant", sample := s.x180_amp_NV }
      x90_wf := { wtype := "constant", sample := s.x90_amp_NV }
      minus_x90_wf := { wtype := "constant", sample := -s.x90_amp_NV }
      zero_wf := { wtype := "constant", sample := 0 } }
  digital_waveforms := [("ON", [(1, 0)]), ("OFF", [(0, 0)])]
  mixers :=
    [{ intermediate_frequency := s.IF_freq_NV
       lo_frequency := s.SG1_LO_freq
       correction := IQ_imbalance t s.g s.phi }]

/-- The `ConfigNV` object: the scalar constants, the stored filename,
the derived document, and the `__initialized` flag.  The live
connection handles (`qmm`, `SG384_1`, `SG384_2`) are external
collaborators and carry no state the embedded operations read. -/
structure ConfigNV where
  scalars : Scalars
  filename : String
  config : QmDocument
  initialized : Bool

/-- `ConfigNV.__setattr__` (config.py lines 206–216) for a scalar
attribute: after initialization, any write to an attribute other than
`config` itself stores the value and immediately regenerates the
derived document; during initialization it only stores the value.
(The guard `name != "config"` is satisfied by every `ScalarName`.) -/
def ConfigNV.setattr (t : TrigModel) (c : ConfigNV) (n : ScalarName) (v : ℚ) : ConfigNV :=
  if c.initialized then
    let s := setScalar c.scalars n v
    { c with scalars := s, config := update_config t s }
  else
    { c with scalars := setScalar c.scalars n v }

/-- `ConfigNV.__init__` with `filename=None` and all connections
disabled: `load_default`, then `update_config`, then the initialized
flag is set.  (The generated date-stamped filename is modelled by a
fixed name; no claim reads it.) -/
def ConfigNV.mk_default (t : TrigModel) : ConfigNV where
  scalars := load_default
  filename := "config_default.json"
  config := update_config t load_default
  initialized := true

/-- The JSON-serializable attributes kept by `ConfigNV.to_dict`: the
scalar constants, the filename and the derived document (which consists
of plain numbers, strings and lists, hence serializes); the connection
handles are dropped by the `can_save_json` filter. -/
structure ConfigDict where
  scalars : Scalars
  filename : String
  config : QmDocument

/-- `ConfigNV.to_dict` (config.py lines 182–186). -/
def ConfigNV.to_dict (c : ConfigNV) : ConfigDict where
  scalars := c.scalars
  filename := c.filename
  config := c.config

/-- `ConfigNV.from_dict` (config.py lines 188–199): build a connection-
free instance, overwrite every stored attribute from the dictionary,
set the initialized flag, then run `update_config` (overwriting the
document that was read back from the dictionary). -/
def ConfigNV.from_dict (t : TrigModel) (d : ConfigDict) : ConfigNV :=
  let c : ConfigNV :=
    { scalars := d.scalars, filename := d.filename
      config := d.config, initialized := true }
  { c with config := update_config t c.scalars }

/-- The builder state of `Experiment` (base_experiment.py `__init__`,
lines 41–108).  Numpy arrays are `List ℚ`; attributes that hold `None`
until set are `Option`s.  The `initialize` flag of the source is
spelled `init_flag` (its source name collides with a reserved word
here); `file_prefix` (a constant string no operation reads) is omitted
for the same reason. -/
structure Experiment where
  var_vec : Option (List ℚ)
  commands : List Command
  use_fixed : Bool
  measure_len : Option ℚ
  measure_mode : Option String
  measure_channel : Option String
  init_flag : Bool
  measure_delay : ℚ
  laser_channel : Option String
  counts0 : Option (List ℚ)
  counts_ref0 : Option (List ℚ)
  counts1 : Option (List ℚ)
  counts_ref1 : Option (List ℚ)
  iteration : Option ℚ
  x_axis_scale : ℚ
  x_axis_label : String
  y_axis_label : String
  plot_title : String
  config : ConfigNV
  wait_between_runs : ℚ
  wait_for_initialization : ℚ

/-- `Experiment.__init__(config)` (base_experiment.py lines 41–108). -/
def Experiment.mk_default (cfg : ConfigNV) : Experiment where
  var_vec := none
  commands := []
  use_fixed := false
  measure_len := none
  measure_mode := none
  measure_channel := none
  init_flag := false
  measure_delay := 0
  laser_channel := none
  counts0 := none
  counts_ref0 := none
  counts1 := none
  counts_ref1 := none
  iteration := none
  x_axis_scale := 1
  x_axis_label := "Swept Variable [a.u.]"
  y_axis_label := "Intensity [kcps]"
  plot_title := "Measurement Results"
  config := cfg
  wait_between_runs := 0
  wait_for_initialization := 0

/-- `Experiment.update_loop` (base_experiment.py lines 240–275):

    if np.all(var_vec == 0):
        raise ValueError("Variable vector cannot be all zeros.")
    if self.var_vec is None:
        self.var_vec = var_vec
        return 1
    two = self.var_vec
    if np.dot(var_vec, two) * np.dot(two, var_vec) == np.dot(var_vec, var_vec) * np.dot(two, two):
        ... ratio-search loop (see ratio_search) ...
    raise ValueError("Inconsistent loop variables.")

The function mutates `self` only on the first registration, so the
error results leave the state unchanged and only the `ok` result
carries the (possibly updated) state. -/
def Experiment.update_loop (e : Experiment) (var_vec : List ℚ) :
    Except PyError (Experiment × ℚ) :=
  if ∀ x ∈ var_vec, x = 0 then .error .valueError
  else
    match e.var_vec with
    | none => .ok ({ e with var_vec := some var_vec }, 1)
    | some two =>
      if dot var_vec two * dot two var_vec = dot var_vec var_vec * dot two two then
        (ratio_search two var_vec).map fun d => (e, d)
      else .error .valueError

/-- `Experiment.add_measure` (base_experiment.py lines 209–227).  The
measure command is appended to `self.commands` before the length check,
so the `ValueError` result carries the mutated state (an exception in
Python leaves `self` as the method left it). -/
def Experiment.add_measure (e : Experiment) (mode channel : String)
    (meas_len : Option ℚ) : Except (PyError × Experiment) Experiment :=
  let ml := meas_len.getD e.config.scalars.meas_len_1
  let e1 := { e with commands := e.commands ++ [Command.measure channel mode ml] }
  match e1.measure_len with
  | none =>
    .ok { e1 with
            measure_len := some ml, measure_mode := some mode
            measure_channel := some channel }
  | some prev => if prev ≠ ml then .error (.valueError, e1) else .ok e1

/-- The externally visible steps of `execute_experiment` and
`simulate_experiment` past the precondition checks: program compilation
(`create_experiment`), then the QM-runtime / hardware interactions, in
the order the source performs them. -/
inductive RuntimeAction
  | compileProgram
  | openQM
  | enableSG
  | executeProgram
  | fetchResults
  | disableSG
  | closeQM
  | simulateProgram
  | plotSamples
deriving DecidableEq, Repr

/-- `Experiment.execute_experiment` (base_experiment.py lines 476–564)
up to its interaction trace: the two precondition checks are raised
synchronously, before `create_experiment` is called and before any
runtime or hardware action is emitted. -/
def Experiment.execute_experiment (e : Experiment) :
    Except PyError (List RuntimeAction) :=
  if e.commands.length = 0 then .error .valueError
  else if e.var_vec = none then .error .valueError
  else
    .ok [RuntimeAction.compileProgram, RuntimeAction.openQM,
         RuntimeAction.enableSG, RuntimeAction.executeProgram,
         RuntimeAction.fetchResults, RuntimeAction.disableSG,
         RuntimeAction.closeQM]

/-- `Experiment.simulate_experiment` (base_experiment.py lines 449–474)
up to its interaction trace: the same two precondition checks come
before compilation and simulation. -/
def Experiment.simulate_experiment (e : Experiment) :
    Except PyError (List RuntimeAction) :=
  if e.commands.length = 0 then .error .valueError
  else if e.var_vec = none then .error .valueError
  else
    .ok [RuntimeAction.compileProgram, RuntimeAction.simulateProgram,
         RuntimeAction.plotSamples]

/-- The JSON object written by `Experiment.save` (base_experiment.py
lines 615–629): every builder attribute except `config`, which is
replaced by `self.config.to_dict()`.  `NumpyEncoder` flattens numpy
arrays to plain lists, which is the representation this embedding
already uses. -/
structure SavedExperiment where
  var_vec : Option (List ℚ)
  commands : List Command
  use_fixed : Bool
  measure_len : Option ℚ
  measure_mode : Option String
  measure_channel : Option String
  init_flag : Bool
  measure_delay : ℚ
  laser_channel : Option String
  counts0 : Option (List ℚ)
  counts_ref0 : Option (List ℚ)
  counts1 : Option (List ℚ)
  counts_ref1 : Option (List ℚ)
  iteration : Option ℚ
  x_axis_scale : ℚ
  x_axis_label : String
  y_axis_label : String
  plot_title : String
  config : ConfigDict
  wait_between_runs : ℚ
  wait_for_initialization : ℚ

/-- `Experiment.save` (base_experiment.py lines 615–629), up to the
file I/O (an I/O failure is caught and logged in the source). -/
def Experiment.save (e : Experiment) : SavedExperiment where
  var_vec := e.var_vec
  commands := e.commands
  use_fixed := e.use_fixed
  measure_len := e.measure_len
  measure_mode := e.measure_mode
  measure_channel := e.measure_channel
  init_flag := e.init_flag
  measure_delay := e.measure_delay
  laser_channel := e.laser_channel
  counts0 := e.counts0
  counts_ref0 := e.counts_ref0
  counts1 := e.counts1
  counts_ref1 := e.counts_ref1
  iteration := e.iteration
  x_axis_scale := e.x_axis_scale
  x_axis_label := e.x_axis_label
  y_axis_label := e.y_axis_label
  plot_title := e.plot_title
  config := e.config.to_dict
  wait_between_runs := e.wait_between_runs
  wait_for_initialization := e.wait_for_initialization

/-- `Experiment.load` (base_experiment.py lines 631–651): every stored
attribute is written back verbatim, except `config`, which is rebuilt
by `ConfigNV.from_dict`. -/
def Experiment.load (t : TrigModel) (d : SavedExperiment) : Experiment where
  var_vec := d.var_vec
  commands := d.commands
  use_fixed := d.use_fixed
  measure_len := d.measure_len
  measure_mode := d.measure_mode
  measure_channel := d.measure_channel
  init_flag := d.init_flag
  measure_delay := d.measure_delay
  laser_channel := d.laser_channel
  counts0 := d.counts0
  counts_ref0 := d.counts_ref0
  counts1 := d.counts1
  counts_ref1 := d.counts_ref1
  iteration := d.iteration
  x_axis_scale := d.x_axis_scale
  x_axis_label := d.x_axis_label
  y_axis_label := d.y_axis_label
  plot_title := d.plot_title
  config := ConfigNV.from_dict t d.config
  wait_between_runs := d.wait_between_runs
  wait_for_initialization := d.wait_for_initialization

/-- The modulation-type table of `SG384Control.do_set_modulation_type`
(SG384.py line 150). -/
def type_dict : List (String × ℕ) :=
  [("AM", 0), ("FM", 1), ("PHASEM", 2), ("SWEEP", 3),
   ("PULSE", 4), ("BLANK", 5), ("IQ", 6)]

/-- `SG384Control.do_set_modulation_type` (SG384.py lines 132–155), up
to the command it sends on the wire: `type_dict.get(mtype, -1)`; on
`-1` it logs and returns without sending anything (`none`); otherwise
it sends the single command `"TYPE %s" % type_dict[mtype]`. -/
def do_set_modulation_type (mtype : String) : Option String :=
  let t : Int := ((List.lookup mtype type_dict).map Int.ofNat).getD (-1)
  if t = -1 then none
  else (List.lookup mtype type_dict).map fun n => "TYPE " ++ toString n

/-- The outcome of the external nonlinear least-squares solver
(`scipy.optimize.curve_fit`): either a parameter vector with a
covariance matrix, or any raised exception (with its message). -/
inductive SolverOutcome
  | success (params : List ℚ) (covariance : List (List ℚ))
  | failure (msg : String)

/-- Assignment into a Python `dict` represented as an association list
in insertion order: overwrite the existing entry for the key, else
append. -/
def dictSet {α : Type} (l : List (String × α)) (k : String) (v : α) :
    List (String × α) :=
  match l with
  | [] => [(k, v)]
  | (k', v') :: rest =>
    if k' = k then (k, v) :: rest else (k', v') :: dictSet rest k v

/-- The `DataFitter` state (analysis.py lines 9–33): the derived x/y
data and the per-model-name fit-results cache. -/
structure DataFitter where
  x_data : List ℚ
  y_data : List ℚ
  fit_results : List (String × (List ℚ × List (List ℚ)))

/-- `DataFitter.fit` (analysis.py lines 36–51): the whole body is a
`try`/`except` around the solver call, the cache assignment keyed by
`model_function.__name__`, and the return; on any exception it logs and
returns the sentinel `(None, None)` — it never raises.  The solver call
itself is external, so its outcome is an argument. -/
def DataFitter.fit (f : DataFitter) (model_name : String)
    (outcome : SolverOutcome) :
    DataFitter × Option (List ℚ × List (List ℚ)) :=
  match outcome with
  | .success p c =>
    ({ f with fit_results := dictSet f.fit_results model_name (p, c) }, some (p, c))
  | .failure _ => (f, none)

/-- A concrete trig interpretation used to instantiate the theorems on
concrete inputs (any interpretation works). -/
def trig0 : TrigModel where
  cos := fun _ => 1
  sin := fun _ => 0

/-- A freshly constructed configuration. -/
def cfg0 : ConfigNV := ConfigNV.mk_default trig0

/-- A freshly constructed experiment. -/
def E0 : Experiment := Experiment.mk_default cfg0

/-- The fresh experiment after registering the sweep vector `[1,2,3]`. -/
def E1 : Experiment := { E0 with var_vec := some [1, 2, 3] }

/-- The fresh experiment with a measurement length of `600` already
recorded by a previous `add_measure`. -/
def E2 : Experiment := { E0 with measure_len := some 600 }

/-- The state `add_measure` leaves behind when it raises on `E2`:
the offending measure command is already appended. -/
def E2' : Experiment :=
  { E2 with commands := E2.commands ++ [Command.measure "SPCM1" "readout" 500] }

/-! ### Helper lemmas about `dot` and `ratio_search` -/

lemma dot_nil_right (a : List ℚ) : dot a [] = 0 := by cases a <;> rfl

lemma dot_cons (x y : ℚ) (a b : List ℚ) :
    dot (x :: a) (y :: b) = x * y + dot a b := by
  simp [dot]

lemma dot_comm : ∀ a b : List ℚ, dot a b = dot b a
  | [], [] => rfl
  | [], _ :: _ => rfl
  | _ :: _, [] => rfl
  | x :: a, y :: b => by rw [dot_cons, dot_cons, dot_comm a b, mul_comm]

lemma dot_self_nonneg : ∀ a : List ℚ, 0 ≤ dot a a
  | [] => le_refl 0
  | x :: a => by
    rw [dot_cons]
    exact add_nonneg (mul_self_nonneg x) (dot_self_nonneg a)

lemma mem_zero_of_dot_self_eq_zero :
    ∀ a : List ℚ, dot a a = 0 → ∀ x ∈ a, x = 0 := by
  intro a
  induction a with
  | nil => intro _ x hx; cases hx
  | cons y a ih =>
    intro h x hx
    rw [dot_cons] at h
    have h1 : 0 ≤ y * y := mul_self_nonneg y
    have h2 : 0 ≤ dot a a := dot_self_nonneg a
    have hy : y * y = 0 := by linarith
    have hd : dot a a = 0 := by linarith
    rcases List.mem_cons.mp hx with rfl | hx2
    · exact mul_self_eq_zero.mp hy
    · exact ih hd x hx2

lemma dot_self_pos (b : List ℚ) (x : ℚ) (hx : x ∈ b) (hxne : x ≠ 0) :
    0 < dot b b := by
  rcases lt_or_eq_of_le (dot_self_nonneg b) with h | h
  · exact h
  · exact absurd (mem_zero_of_dot_self_eq_zero b h.symm x hx) hxne

lemma dot_map_smul_left (k : ℚ) : ∀ a b : List ℚ,
    dot (a.map fun x => k * x) b = k * dot a b
  | [], b => by simp [dot]
  | _ :: _, [] => by rw [dot_nil_right, dot_nil_right, mul_zero]
  | x :: a, y :: b => by
    rw [List.map_cons, dot_cons, dot_cons, dot_map_smul_left k a b]
    ring

lemma dot_map_smul_right (k : ℚ) (a b : List ℚ) :
    dot a (b.map fun x => k * x) = k * dot a b := by
  rw [dot_comm, dot_map_smul_left, dot_comm]

lemma dot_sub_smul (k : ℚ) : ∀ a b : List ℚ, a.length = b.length →
    dot (List.zipWith (fun x y => x - k * y) a b)
        (List.zipWith (fun x y => x - k * y) a b)
      = dot a a - 2 * k * dot a b + k ^ 2 * dot b b
  | [], [] => by intro _; simp [dot]
  | [], _ :: _ => by intro h; simp at h
  | _ :: _, [] => by intro h; simp at h
  | x :: a, y :: b => by
    intro h
    simp only [List.zipWith_cons_cons]
    rw [dot_cons, dot_cons, dot_cons, dot_cons,
      dot_sub_smul k a b (by simpa using h)]
    ring

lemma eq_map_of_zip_sub_zero (k : ℚ) : ∀ a b : List ℚ, a.length = b.length →
    (∀ x ∈ List.zipWith (fun x y => x - k * y) a b, x = 0) →
    a = b.map fun y => k * y
  | [], [] => by intro _ _; rfl
  | [], _ :: _ => by intro h _; simp at h
  | _ :: _, [] => by intro h _; simp at h
  | x :: a, y :: b => by
    intro h hz
    have hx : x - k * y = 0 := by
      apply hz
      simp only [List.zipWith_cons_cons]
      exact List.mem_cons_self _ _
    have ha : a = b.map fun y => k * y := by
      apply eq_map_of_zip_sub_zero k a b (by simpa using h)
      intro z hzz
      apply hz
      simp only [List.zipWith_cons_cons]
      exact List.mem_cons_of_mem _ hzz
    rw [List.map_cons, ← ha]
    have hxy : x = k * y := by linarith
    rw [hxy]

/-- The Cauchy–Schwarz equality case over `ℚ` lists: if the dot-product
identity tested by `update_loop` holds and the stored vector has a
nonzero entry, the new vector is a scalar multiple of it. -/
lemma exists_smul_of_dot_eq (a b : List ℚ) (hlen : a.length = b.length)
    (x : ℚ) (hxb : x ∈ b) (hxne : x ≠ 0)
    (h : dot a b * dot b a = dot a a * dot b b) :
    ∃ k, a = b.map fun y => k * y := by
  have hbb : 0 < dot b b := dot_self_pos b x hxb hxne
  have hbbne : dot b b ≠ 0 := ne_of_gt hbb
  have h' : dot a b * dot a b = dot a a * dot b b := by
    rw [dot_comm b a] at h; exact h
  refine ⟨dot a b / dot b b, ?_⟩
  apply eq_map_of_zip_sub_zero _ a b hlen
  apply mem_zero_of_dot_self_eq_zero
  rw [dot_sub_smul _ a b hlen]
  field_simp
  linear_combination (-(dot b b ^ 2)) * h'

lemma map_smul_not_all_zero (k : ℚ) (hk : k ≠ 0) (b : List ℚ)
    (hb : ¬ ∀ x ∈ b, x = 0) : ¬ ∀ x ∈ b.map (fun x => k * x), x = 0 := by
  intro h
  apply hb
  intro x hx
  have hkx := h (k * x) (List.mem_map_of_mem _ hx)
  rcases mul_eq_zero.mp hkx with h1 | h1
  · exact absurd h1 hk
  · exact h1

/-- For a scalar multiple, the dot-product identity that `update_loop`
tests holds. -/
lemma dot_test_map (k : ℚ) (b : List ℚ) :
    dot (b.map fun x => k * x) b * dot b (b.map fun x => k * x)
      = dot (b.map fun x => k * x) (b.map fun x => k * x) * dot b b := by
  rw [dot_map_smul_left, dot_map_smul_right, dot_map_smul_left,
    dot_map_smul_right]
  ring

/-- On a positive scalar multiple `k·b` of a stored vector `b` with a
nonzero entry, the ratio-search loop stops at the first nonzero entry
and returns `b[i] / (k·b[i]) = 1/k`. -/
lemma ratio_search_map_pos (k : ℚ) (hk : 0 < k) :
    ∀ b : List ℚ, (∃ x ∈ b, x ≠ 0) →
      ratio_search b (b.map fun x => k * x) = .ok (1 / k)
  | [], h => by simp at h
  | o :: os, h => by
    rw [List.map_cons]
    by_cases ho : o = 0
    · subst ho
      rw [show ratio_search (0 :: os) ((k * 0) :: os.map fun x => k * x)
            = ratio_search os (os.map fun x => k * x) by
          simp [ratio_search]]
      apply ratio_search_map_pos k hk os
      rcases h with ⟨x, hx, hxne⟩
      rcases List.mem_cons.mp hx with rfl | hx2
      · exact absurd rfl hxne
      · exact ⟨x, hx2, hxne⟩
    · have hko : k * o ≠ 0 := mul_ne_zero (ne_of_gt hk) ho
      have hdiv : o / (k * o) = 1 / k := by
        rw [mul_comm]
        rw [div_mul_eq_div_div]
        rw [div_self ho]
      have hpos : 0 < 1 / k := by positivity
      simp only [ratio_search, hko, if_false, hdiv, if_neg (asymm hpos),
        if_pos hpos]

/-- On a negative scalar multiple the ratio at every index is either
skipped (zero entry) or negative, so the loop walks past the end of the
lists: the Python `IndexError`. -/
lemma ratio_search_map_neg (k : ℚ) (hk : k < 0) :
    ∀ b : List ℚ, ratio_search b (b.map fun x => k * x) = .error .indexError
  | [] => rfl
  | o :: os => by
    rw [List.map_cons]
    by_cases ho : o = 0
    · subst ho
      rw [show ratio_search (0 :: os) ((k * 0) :: os.map fun x => k * x)
            = ratio_search os (os.map fun x => k * x) by
          simp [ratio_search]]
      exact ratio_search_map_neg k hk os
    · have hko : k * o ≠ 0 := mul_ne_zero (ne_of_lt hk) ho
      have hdiv : o / (k * o) = 1 / k := by
        rw [mul_comm, div_mul_eq_div_div, div_self ho]
      have hneg : o / (k * o) < 0 := by
        rw [hdiv]
        exact one_div_neg.mpr hk
      simp only [ratio_search, hko, if_false, if_pos hneg]
      exact ratio_search_map_neg k hk os

lemma lookup_dictSet {α : Type} (l : List (String × α)) (k : String) (v : α) :
    List.lookup k (dictSet l k v) = some v := by
  induction l with
  | nil => simp [dictSet, List.lookup]
  | cons p rest ih =>
    obtain ⟨k', v'⟩ := p
    by_cases h : k' = k
    · subst h
      simp [dictSet, List.lookup]
    · simp only [dictSet, if_neg h, List.lookup]
      rw [show (k == k') = false by
        exact beq_eq_false_iff_ne.mpr (Ne.symm h)]
      exact ih

/-- Behaviour of `add_measure` when no measurement length is recorded:
the command is appended and the shared length/mode/channel are set. -/
lemma add_measure_eq_none (e : Experiment) (m c : String) (ml : Option ℚ)
    (h : e.measure_len = none) :
    Experiment.add_measure e m c ml =
      .ok { e with
        commands := e.commands ++
          [Command.measure c m (ml.getD e.config.scalars.meas_len_1)],
        measure_len := some (ml.getD e.config.scalars.meas_len_1),
        measure_mode := some m,
        measure_channel := some c } := by
  simp only [Experiment.add_measure]
  rw [h]

/-- Behaviour of `add_measure` when a measurement length `prev` is
already recorded: the command is appended first, then the length check
either raises (carrying the mutated state) or returns it. -/
lemma add_measure_eq_some (e : Experiment) (m c : String) (ml : Option ℚ)
    (prev : ℚ) (h : e.measure_len = some prev) :
    Experiment.add_measure e m c ml =
      (if prev ≠ ml.getD e.config.scalars.meas_len_1 then
        .error (.valueError, { e with
          commands := e.commands ++
            [Command.measure c m (ml.getD e.config.scalars.meas_len_1)] })
       else
        .ok { e with
          commands := e.commands ++
            [Command.measure c m (ml.getD e.config.scalars.meas_len_1)] }) := by
  simp only [Experiment.add_measure]
  rw [h]

/-- Behaviour of `update_loop` on a first registration. -/
lemma update_loop_none (e : Experiment) (h : e.var_vec = none)
    (v : List ℚ) (hnz : ¬ ∀ x ∈ v, x = 0) :
    Experiment.update_loop e v = .ok ({ e with var_vec := some v }, 1) := by
  unfold Experiment.update_loop
  rw [if_neg hnz, h]

/-- Behaviour of `update_loop` when a sweep vector is registered. -/
lemma update_loop_some (e : Experiment) (two : List ℚ)
    (h : e.var_vec = some two) (v : List ℚ) (hnz : ¬ ∀ x ∈ v, x = 0) :
    Experiment.update_loop e v =
      (if dot v two * dot two v = dot v v * dot two two
       then (ratio_search two v).map fun d => (e, d)
       else .error .valueError) := by
  unfold Experiment.update_loop
  rw [if_neg hnz, h]

/-! ### Claim theorems -/

/-- C1, counterexample: with `[1,2,3]` registered, `update_loop` called
with `[2,4,6]` returns `0.5` — the stored vector divided by the new
one, entry-wise, at the first nonzero entry — and therefore does not
return the claimed scale factor `2.0` of the new vector relative to the
first-registered one. -/
theorem update_loop_claim_cx :
    Experiment.update_loop E1 [2, 4, 6] = .ok (E1, 1 / 2) ∧
      Experiment.update_loop E1 [2, 4, 6] ≠ .ok (E1, 2) := by
  have h12 : ([2, 4, 6] : List ℚ) = [1, 2, 3].map fun x => 2 * x := by
    norm_num
  have h : Experiment.update_loop E1 [2, 4, 6] = .ok (E1, 1 / 2) := by
    rw [update_loop_some E1 [1, 2, 3] rfl [2, 4, 6] (by decide), h12,
      if_pos (dot_test_map 2 [1, 2, 3]),
      ratio_search_map_pos 2 (by norm_num) [1, 2, 3]
        ⟨1, List.mem_cons_self _ _, one_ne_zero⟩]
    rfl
  refine ⟨h, fun h2 => ?_⟩
  rw [h] at h2
  injection h2 with h3
  have h4 : (1 / 2 : ℚ) = 2 := congrArg Prod.snd h3
  norm_num at h4

/-- C1, amended: the first registration of a sweep vector stores it and
returns `1`; for every already-registered vector `v1` and every
subsequent registration of `v2 = k·v1` with `k > 0`, the call returns
`1/k` — the scale factor of the first-registered vector relative to the
new one (so `[1,2,3]` followed by `[2,4,6]` returns `0.5`, not `2.0`). -/
theorem update_loop_scale :
    (∀ (e : Experiment) (v : List ℚ), e.var_vec = none →
      (¬ ∀ x ∈ v, x = 0) →
      Experiment.update_loop e v = .ok ({ e with var_vec := some v }, 1)) ∧
    (∀ (e : Experiment) (v1 : List ℚ) (k : ℚ), e.var_vec = some v1 →
      (¬ ∀ x ∈ v1, x = 0) → 0 < k →
      Experiment.update_loop e (v1.map fun x => k * x) = .ok (e, 1 / k)) := by
  constructor
  · exact fun e v h hnz => update_loop_none e h v hnz
  · intro e v1 k h1 hnz hk
    have hnz2 : ¬ ∀ x ∈ v1.map (fun x => k * x), x = 0 :=
      map_smul_not_all_zero k (ne_of_gt hk) v1 hnz
    rw [update_loop_some e v1 h1 _ hnz2, if_pos (dot_test_map k v1)]
    have hex : ∃ x ∈ v1, x ≠ 0 := by
      by_contra hall
      push_neg at hall
      exact hnz hall
    rw [ratio_search_map_pos k hk v1 hex]
    rfl

/-- C1, witness for the amended theorem: on a fresh experiment,
registering `[1,2,3]` returns `1` and stores the vector; registering
`2 · [1,2,3] = [2,4,6]` afterwards returns `1/2`. -/
theorem update_loop_scale_witness :
    E0.var_vec = none ∧ (¬ ∀ x ∈ ([1, 2, 3] : List ℚ), x = 0) ∧
    Experiment.update_loop E0 [1, 2, 3] = .ok (E1, 1) ∧
    E1.var_vec = some [1, 2, 3] ∧ (0 : ℚ) < 2 ∧
    Experiment.update_loop E1 ([1, 2, 3].map fun x => 2 * x) =
      .ok (E1, 1 / 2) :=
  ⟨rfl, by decide, update_loop_scale.1 E0 [1, 2, 3] rfl (by decide),
   rfl, by norm_num,
   update_loop_scale.2 E1 [1, 2, 3] 2 rfl (by decide) (by norm_num)⟩

/-- C2: `update_loop` raises `ValueError` on an all-zero vector,
whatever the state; and, with a (nonzero) vector `v1` registered, it
raises `ValueError` on any equal-length vector that is not a scalar
multiple of `v1`. -/
theorem update_loop_rejects :
    (∀ (e : Experiment) (v : List ℚ), (∀ x ∈ v, x = 0) →
      Experiment.update_loop e v = .error .valueError) ∧
    (∀ (e : Experiment) (v1 v2 : List ℚ), e.var_vec = some v1 →
      (¬ ∀ x ∈ v1, x = 0) → v2.length = v1.length →
      (¬ ∃ k : ℚ, v2 = v1.map fun x => k * x) →
      Experiment.update_loop e v2 = .error .valueError) := by
  constructor
  · intro e v hz
    unfold Experiment.update_loop
    rw [if_pos hz]
  · intro e v1 v2 h1 hnz hlen hnm
    by_cases hz : ∀ x ∈ v2, x = 0
    · unfold Experiment.update_loop
      rw [if_pos hz]
    · rw [update_loop_some e v1 h1 v2 hz]
      have hex : ∃ x ∈ v1, x ≠ 0 := by
        by_contra hall
        push_neg at hall
        exact hnz hall
      obtain ⟨x, hxv, hxne⟩ := hex
      have htest : ¬ (dot v2 v1 * dot v1 v2 = dot v2 v2 * dot v1 v1) := by
        intro heq
        exact hnm (exists_smul_of_dot_eq v2 v1 hlen x hxv hxne heq)
      rw [if_neg htest]

/-- C2, witness: with `[1,2,3]` registered, `[1,3,5]` (not a scalar
multiple) raises the inconsistency `ValueError`, and the all-zero
vector `[0,0,0]` raises `ValueError` on the fresh experiment. -/
theorem update_loop_rejects_witness :
    (∀ x ∈ ([0, 0, 0] : List ℚ), x = 0) ∧
    Experiment.update_loop E0 [0, 0, 0] = .error .valueError ∧
    E1.var_vec = some [1, 2, 3] ∧
    (¬ ∀ x ∈ ([1, 2, 3] : List ℚ), x = 0) ∧
    ([1, 3, 5] : List ℚ).length = ([1, 2, 3] : List ℚ).length ∧
    (¬ ∃ k : ℚ, [1, 3, 5] = [1, 2, 3].map fun x => k * x) ∧
    Experiment.update_loop E1 [1, 3, 5] = .error .valueError := by
  have hnm : ¬ ∃ k : ℚ, [1, 3, 5] = ([1, 2, 3] : List ℚ).map fun x => k * x := by
    rintro ⟨k, hk⟩
    simp only [List.map_cons, List.map_nil, List.cons.injEq, and_true,
      mul_one] at hk
    obtain ⟨h1, h2, h3⟩ := hk
    subst h1
    norm_num at h2
  exact ⟨by decide, update_loop_rejects.1 E0 [0, 0, 0] (by decide),
    rfl, by decide, rfl, hnm,
    update_loop_rejects.2 E1 [1, 2, 3] [1, 3, 5] rfl (by decide) rfl hnm⟩

/-- C9: with a registered (nonzero) vector `v1`, submitting the
negative multiple `k·v1` (`k < 0`) passes the dot-product collinearity
test, but every ratio the search loop computes is negative (or the
entry is skipped as zero), so the loop indexes past the end of the
stored vector: the call fails with `IndexError`, not the inconsistency
`ValueError`. -/
theorem update_loop_negative_multiple (e : Experiment) (v1 : List ℚ)
    (k : ℚ) (h1 : e.var_vec = some v1) (hnz : ¬ ∀ x ∈ v1, x = 0)
    (hk : k < 0) :
    Experiment.update_loop e (v1.map fun x => k * x) =
      .error .indexError := by
  have hnz2 : ¬ ∀ x ∈ v1.map (fun x => k * x), x = 0 :=
    map_smul_not_all_zero k (ne_of_lt hk) v1 hnz
  rw [update_loop_some e v1 h1 _ hnz2, if_pos (dot_test_map k v1),
    ratio_search_map_neg k hk v1]
  rfl

/-- C9, witness: with `[1,2,3]` registered, submitting
`-1 · [1,2,3] = [-1,-2,-3]` fails with `IndexError`. -/
theorem update_loop_negative_multiple_witness :
    E1.var_vec = some [1, 2, 3] ∧
    (¬ ∀ x ∈ ([1, 2, 3] : List ℚ), x = 0) ∧ ((-1 : ℚ) < 0) ∧
    Experiment.update_loop E1 ([1, 2, 3].map fun x => (-1) * x) =
      .error .indexError :=
  ⟨rfl, by decide, by norm_num,
   update_loop_negative_multiple E1 [1, 2, 3] (-1) rfl (by decide)
     (by norm_num)⟩

/-- C3: starting from a state with no measurement length recorded, a
first `add_measure` succeeds and records its acquisition length; a
second `add_measure` with a differing length raises the inconsistency
`ValueError`, while a second call with the same length succeeds and
leaves `measure_len` unchanged from the first call. -/
theorem add_measure_twice (e : Experiment) (m1 c1 m2 c2 : String)
    (l l' : ℚ) (h : e.measure_len = none) (hne : l' ≠ l) :
    ∃ e1, Experiment.add_measure e m1 c1 (some l) = .ok e1 ∧
      e1.measure_len = some l ∧
      (∃ e2, Experiment.add_measure e1 m2 c2 (some l') =
        .error (.valueError, e2)) ∧
      (∃ e3, Experiment.add_measure e1 m2 c2 (some l) = .ok e3 ∧
        e3.measure_len = some l) := by
  refine ⟨{ e with
      commands := e.commands ++ [Command.measure c1 m1 l],
      measure_len := some l, measure_mode := some m1,
      measure_channel := some c1 }, ?_, rfl,
      ⟨{ e with
        commands := (e.commands ++ [Command.measure c1 m1 l]) ++
          [Command.measure c2 m2 l'],
        measure_len := some l, measure_mode := some m1,
        measure_channel := some c1 }, ?_⟩,
      ⟨{ e with
        commands := (e.commands ++ [Command.measure c1 m1 l]) ++
          [Command.measure c2 m2 l],
        measure_len := some l, measure_mode := some m1,
        measure_channel := some c1 }, ?_, rfl⟩⟩
  · rw [add_measure_eq_none e m1 c1 (some l) h, Option.getD_some]
  · rw [add_measure_eq_some _ m2 c2 (some l') l rfl, Option.getD_some,
      if_pos (Ne.symm hne)]
  · rw [add_measure_eq_some _ m2 c2 (some l) l rfl, Option.getD_some,
      if_neg (fun hll => hll rfl)]

/-- C3, witness: a first `add_measure` with length `600` on a fresh
experiment, followed by one with length `500`, raises `ValueError`;
followed instead by another with length `600`, succeeds and leaves
`measure_len = 600`. -/
theorem add_measure_twice_witness :
    E0.measure_len = none ∧ ((500 : ℚ) ≠ 600) ∧
    ∃ e1, Experiment.add_measure E0 "readout" "SPCM1" (some 600) = .ok e1 ∧
      e1.measure_len = some 600 ∧
      (∃ e2, Experiment.add_measure e1 "readout" "SPCM1" (some 500) =
        .error (.valueError, e2)) ∧
      (∃ e3, Experiment.add_measure e1 "readout" "SPCM1" (some 600) = .ok e3 ∧
        e3.measure_len = some 600) :=
  ⟨rfl, by norm_num,
   add_measure_twice E0 "readout" "SPCM1" "readout" "SPCM1" 600 500 rfl
     (by norm_num)⟩

/-- C10: whenever `add_measure` raises the inconsistency `ValueError`,
the offending measure command has already been appended to the
builder's command list: the post-state carried by the error has the
command list grown by exactly the new measure command. -/
theorem add_measure_mutates (e e' : Experiment) (m c : String)
    (l : Option ℚ) (err : PyError)
    (h : Experiment.add_measure e m c l = .error (err, e')) :
    e'.commands = e.commands ++
        [Command.measure c m (l.getD e.config.scalars.meas_len_1)] ∧
      e'.commands.length = e.commands.length + 1 := by
  rcases hml : e.measure_len with _ | prev
  · rw [add_measure_eq_none e m c l hml] at h
    exact absurd h (by simp)
  · rw [add_measure_eq_some e m c l prev hml] at h
    by_cases hpl : prev ≠ l.getD e.config.scalars.meas_len_1
    · rw [if_pos hpl] at h
      injection h with h2
      have he' : e' = { e with commands := e.commands ++
          [Command.measure c m (l.getD e.config.scalars.meas_len_1)] } :=
        (congrArg Prod.snd h2).symm
      subst he'
      exact ⟨rfl, by simp⟩
    · rw [if_neg hpl] at h
      exact absurd h (by simp)

/-- C10, witness: on `E2` (measurement length `600` recorded, empty
command list), `add_measure` with length `500` raises, and the error
state `E2'` has the measure command appended. -/
theorem add_measure_mutates_witness :
    Experiment.add_measure E2 "readout" "SPCM1" (some 500) =
        .error (.valueError, E2') ∧
      E2'.commands = E2.commands ++
        [Command.measure "SPCM1" "readout"
          ((some (500 : ℚ)).getD E2.config.scalars.meas_len_1)] ∧
      E2'.commands.length = E2.commands.length + 1 := by
  have h : Experiment.add_measure E2 "readout" "SPCM1" (some 500) =
      .error (.valueError, E2') := by
    rw [add_measure_eq_some E2 "readout" "SPCM1" (some 500) 600 rfl,
      Option.getD_some, if_pos (by norm_num : (600 : ℚ) ≠ 500)]
    rfl
  exact ⟨h, (add_measure_mutates E2 E2' "readout" "SPCM1" (some 500)
    PyError.valueError h).1,
    (add_measure_mutates E2 E2' "readout" "SPCM1" (some 500)
      PyError.valueError h).2⟩

/-- C4: after initialization is complete, every attribute write to a
`ConfigNV` (any attribute other than the derived document `config`
itself — here, any scalar constant) immediately regenerates the derived
hardware-configuration document, so the stored document equals the pure
function `update_config` of the current scalar constants; in
particular every pulse/mixer/element entry referencing the mutated
scalar reflects the new value. -/
theorem config_setattr_regenerates (t : TrigModel) (c : ConfigNV)
    (n : ScalarName) (v : ℚ) (h : c.initialized = true) :
    (ConfigNV.setattr t c n v).config =
      update_config t (ConfigNV.setattr t c n v).scalars := by
  unfold ConfigNV.setattr
  rw [if_pos h]

/-- C4, witness: on a freshly initialized configuration, writing
`mw_delay := 7` leaves the document equal to `update_config` of the
updated scalars. -/
theorem config_setattr_regenerates_witness :
    cfg0.initialized = true ∧
      (ConfigNV.setattr trig0 cfg0 ScalarName.mw_delay 7).config =
        update_config trig0
          (ConfigNV.setattr trig0 cfg0 ScalarName.mw_delay 7).scalars :=
  ⟨rfl, config_setattr_regenerates trig0 cfg0 ScalarName.mw_delay 7 rfl⟩

/-- C5: `execute_experiment` and `simulate_experiment` raise
`ValueError` when the command list is empty or when no sweep vector has
been registered; the error is produced before the program is compiled
and before any runtime or hardware action is emitted (the successful
branch is the only one that carries an action trace). -/
theorem execute_simulate_preconditions (e : Experiment)
    (h : e.commands = [] ∨ e.var_vec = none) :
    Experiment.execute_experiment e = .error .valueError ∧
      Experiment.simulate_experiment e = .error .valueError := by
  rcases h with h | h <;>
    refine ⟨?_, ?_⟩ <;>
    by_cases hc : e.commands.length = 0 <;>
    simp [Experiment.execute_experiment, Experiment.simulate_experiment,
      h, hc]

/-- C5, witness: the fresh experiment (no commands, no sweep vector)
fails both calls with `ValueError`. -/
theorem execute_simulate_preconditions_witness :
    (E0.commands = [] ∨ E0.var_vec = none) ∧
      Experiment.execute_experiment E0 = .error .valueError ∧
      Experiment.simulate_experiment E0 = .error .valueError :=
  ⟨Or.inl rfl, execute_simulate_preconditions E0 (Or.inl rfl)⟩

/-- C6: a save→load round trip preserves the command list, the sweep
vector and the result count arrays value-for-value (numeric arrays are
already flattened to plain sequences by the JSON encoder, which is the
representation used here), and the reloaded configuration's derived
document equals one freshly computed by `update_config` from the
reloaded scalar constants. -/
theorem save_load_round_trip (t : TrigModel) (e : Experiment) :
    (Experiment.load t (Experiment.save e)).commands = e.commands ∧
    (Experiment.load t (Experiment.save e)).var_vec = e.var_vec ∧
    (Experiment.load t (Experiment.save e)).counts0 = e.counts0 ∧
    (Experiment.load t (Experiment.save e)).counts_ref0 = e.counts_ref0 ∧
    (Experiment.load t (Experiment.save e)).counts1 = e.counts1 ∧
    (Experiment.load t (Experiment.save e)).counts_ref1 = e.counts_ref1 ∧
    (Experiment.load t (Experiment.save e)).config.config =
      update_config t (Experiment.load t (Experiment.save e)).config.scalars :=
  ⟨rfl, rfl, rfl, rfl, rfl, rfl, rfl⟩

/-- C7: `DataFitter.fit` is a total function (it never raises): on
solver success it stores the (parameters, covariance) pair in the
fit-results cache under the model's name — overwriting any previous
entry for that name, as the lookup shows — and returns the pair; on any
solver failure it returns the sentinel `(None, None)` with the cache
(and the whole fitter state) unchanged. -/
theorem fit_never_raises (f : DataFitter) (name : String) :
    (∀ p c, DataFitter.fit f name (.success p c) =
        ({ f with fit_results := dictSet f.fit_results name (p, c) },
          some (p, c)) ∧
      List.lookup name
          ((DataFitter.fit f name (.success p c)).1.fit_results) =
        some (p, c)) ∧
    (∀ msg, DataFitter.fit f name (.failure msg) = (f, none)) :=
  ⟨fun p c => ⟨rfl, lookup_dictSet f.fit_results name (p, c)⟩,
   fun _ => rfl⟩

/-- C8: `do_set_modulation_type` accepts exactly the closed enumeration
`{AM, FM, PHASEM, SWEEP, PULSE, BLANK, IQ}`, sending the single command
`TYPE n` with `n` in `0..6`; for any other modulation type it sends no
command at all. -/
theorem modulation_type_closed :
    (∀ m : String,
      m ∉ (["AM", "FM", "PHASEM", "SWEEP", "PULSE", "BLANK", "IQ"] :
        List String) →
      do_set_modulation_type m = none) ∧
    do_set_modulation_type "AM" = some "TYPE 0" ∧
    do_set_modulation_type "FM" = some "TYPE 1" ∧
    do_set_modulation_type "PHASEM" = some "TYPE 2" ∧
    do_set_modulation_type "SWEEP" = some "TYPE 3" ∧
    do_set_modulation_type "PULSE" = some "TYPE 4" ∧
    do_set_modulation_type "BLANK" = some "TYPE 5" ∧
    do_set_modulation_type "IQ" = some "TYPE 6" := by
  refine ⟨?_, by decide, by decide, by decide, by decide, by decide,
    by decide, by decide⟩
  intro m hm
  simp only [List.mem_cons, List.not_mem_nil, or_false, not_or] at hm
  obtain ⟨h1, h2, h3, h4, h5, h6, h7⟩ := hm
  simp [do_set_modulation_type, type_dict, List.lookup,
    beq_eq_false_iff_ne.mpr h1, beq_eq_false_iff_ne.mpr h2,
    beq_eq_false_iff_ne.mpr h3, beq_eq_false_iff_ne.mpr h4,
    beq_eq_false_iff_ne.mpr h5, beq_eq_false_iff_ne.mpr h6,
    beq_eq_false_iff_ne.mpr h7]

/-- C8, witness: the unrecognized modulation type `"XX"` produces no
command. -/
theorem modulation_type_closed_witness :
    (("XX" : String) ∉
      (["AM", "FM", "PHASEM", "SWEEP", "PULSE", "BLANK", "IQ"] :
        List String)) ∧
      do_set_modulation_type "XX" = none :=
  ⟨by decide, modulation_type_closed.1 "XX" (by decide)⟩

end QegNV
